import Mathlib

/-!
Verification of the statistical-aggregation engine of `nestcheck`
(`nestcheck/pandas_functions.py`).

The shallow embedding below models numpy/pandas float64 values as real
numbers.  Tables (pandas `DataFrame`s with a two- or three-level index)
are modelled as association lists from index keys (tuples of strings) to
the per-column row vectors (`List ℝ`).  Python exceptions are modelled
with `Except`; `PdError` distinguishes the exception classes the source
can raise (`TypeError` for unexpected keyword arguments, `AssertionError`
for failed `assert` statements, Python's `ZeroDivisionError` for integer
division by zero, and `ValueError` for numpy/pandas broadcast or stack
failures).  Python keyword arguments `**kwargs` are modelled by option
structures carrying the recognised options plus the list `extra` of the
names of any unrecognised keyword options that were supplied.
-/

namespace Nestcheck

/-- Exception classes raised by the modelled code. -/
inductive PdError where
  | typeError (msg : String)
  | assertionError (msg : String)
  | zeroDivisionError
  | valueError (msg : String)
  deriving DecidableEq, Repr

/-- Keyword options recognised by `summary_df` (and its adapters);
`extra` holds the names of any unrecognised keyword options. -/
structure SummaryKwargs where
  true_values : Option (List ℝ)
  include_true_values : Bool
  include_rmse : Bool
  extra : List String

/-- Keyword options recognised by `efficiency_gain_df`. -/
structure EffKwargs where
  true_values : Option (List ℝ)
  include_true_values : Bool
  include_rmse : Bool
  adjust_nsamp : Option (List ℝ)
  extra : List String

/-- `np.mean` of a 1d array. -/
noncomputable def npMean (xs : List ℝ) : ℝ := xs.sum / xs.length

/-- The sample variance with `ddof=1`, as computed inside
`np.std(xs, ddof=1)`: squared deviations from the mean divided by `N - 1`. -/
noncomputable def npVar (xs : List ℝ) : ℝ :=
  ((xs.map (fun x => (x - npMean xs) ^ 2)).sum) / ((xs.length : ℝ) - 1)

/-- `np.std(xs, ddof=1)`: square root of the `ddof=1` sample variance. -/
noncomputable def npStd (xs : List ℝ) : ℝ := Real.sqrt (npVar xs)

/-- Column `j` of a table stored as a list of rows. -/
noncomputable def column (j : ℕ) (rows : List (List ℝ)) : List ℝ :=
  rows.map (fun r => r.getD j 0)

/-- Number of columns of a table stored as a list of rows
(`df.shape[1]` for a rectangular table). -/
def ncols (rows : List (List ℝ)) : ℕ := (rows.headD []).length

/-- `df_in.mean(axis=0)`: the columnwise means. -/
noncomputable def meanRow (rows : List (List ℝ)) : List ℝ :=
  (List.range (ncols rows)).map (fun j => npMean (column j rows))

/-- `df_in.std(axis=0, ddof=1)`: the columnwise sample standard deviations. -/
noncomputable def stdRow (rows : List (List ℝ)) : List ℝ :=
  (List.range (ncols rows)).map (fun j => npStd (column j rows))

/-- Column `j` of the array `sq_errors = (values_array - true_values)**2`
from `rmse_and_unc`. -/
noncomputable def sqErrColumn (j : ℕ) (rows : List (List ℝ)) (tv : List ℝ) : List ℝ :=
  (column j rows).map (fun x => (x - tv.getD j 0) ^ 2)

/-- The `rmse` output of `rmse_and_unc`: per column, the square root of the
mean of the squared errors. -/
noncomputable def rmseRow (rows : List (List ℝ)) (tv : List ℝ) : List ℝ :=
  (List.range (ncols rows)).map (fun j => Real.sqrt (npMean (sqErrColumn j rows tv)))

/-- The `rmse_unc` output of `rmse_and_unc`:
`0.5 * (1 / rmse) * sq_errors_mean_unc` where `sq_errors_mean_unc` is
`np.std(sq_errors, axis=0, ddof=1) / np.sqrt(N)`. -/
noncomputable def rmseUncRow (rows : List (List ℝ)) (tv : List ℝ) : List ℝ :=
  (List.range (ncols rows)).map (fun j =>
    0.5 * (1 / Real.sqrt (npMean (sqErrColumn j rows tv))) *
      (npStd (sqErrColumn j rows tv) / Real.sqrt rows.length))

/-- `rmse_and_unc(values_array, true_values)`: asserts that there is one
true value per column, then returns the per-column RMSE and its
propagated uncertainty. -/
noncomputable def rmse_and_unc (values_array : List (List ℝ)) (true_values : List ℝ) :
    Except PdError (List ℝ × List ℝ) :=
  if true_values.length ≠ ncols values_array then
    .error (.assertionError "true_values.shape == (values_array.shape[1],)")
  else .ok (rmseRow values_array true_values, rmseUncRow values_array true_values)

/-- `array_ratio_std(values_n, sigmas_n, values_d, sigmas_d)`: elementwise
uncorrelated-error propagation for a ratio,
`(vn/vd) * ((sn/vn)**2 + (sd/vd)**2) ** 0.5`. -/
noncomputable def array_ratio_std (values_n sigmas_n values_d sigmas_d : List ℝ) : List ℝ :=
  List.zipWith
    (fun p q => (p.1 / q.1) * Real.sqrt ((p.2 / p.1) ^ 2 + (q.2 / q.1) ^ 2))
    (values_n.zip sigmas_n) (values_d.zip sigmas_d)

/-- A two-level summary table: rows keyed by
(calculation type, result type). -/
abbrev SummaryTable := List ((String × String) × List ℝ)

/-- The ordered categories of the `calculation type` index of `summary_df`. -/
def calcCats : List String := ["true values", "mean", "std", "rmse"]

/-- The ordered categories of the `result type` index. -/
def resCats : List String := ["value", "uncertainty"]

/-- Comparison of two-level keys by categorical rank:
calculation type first, then result type. -/
def key2le (a b : String × String) : Bool :=
  (calcCats.indexOf a.1 < calcCats.indexOf b.1) ||
    ((calcCats.indexOf a.1 = calcCats.indexOf b.1) &&
      (resCats.indexOf a.2 ≤ resCats.indexOf b.2))

/-- The ordering relation on summary-table entries used by
`df.sort_index()`: compare only the keys. -/
def entryLe (x y : (String × String) × List ℝ) : Prop := key2le x.1 y.1 = true

instance : DecidableRel entryLe := fun x y => instDecidableEqBool (key2le x.1 y.1) true

/-- `df.sort_index()` on a summary table: a genuine sort by categorical
rank of the two index levels. -/
def sortTable (t : SummaryTable) : SummaryTable := List.insertionSort entryLe t

/-- Does the supplied `true_values` vector fail the shape assert of
`summary_df` (one true value for every column)? -/
def tvShapeBad (rows : List (List ℝ)) : Option (List ℝ) → Bool
  | some t => t.length ≠ ncols rows
  | none => false

/-- `summary_df(df_in, **kwargs)` from `nestcheck/pandas_functions.py`.

Steps, in source order: reject unexpected keyword options (`TypeError`);
assert the `true_values` shape; build the `mean`/`std` value rows; inject
the `true values` row when `include_true_values` (asserting that
`true_values` was given); compute the uncertainty rows, where the scalar
`1 / (2 * (num_cals - 1))` is Python integer division and so raises
`ZeroDivisionError` when `num_cals == 1`; add the RMSE rows when
`include_rmse` (asserting that `true_values` was given); finally sort the
rows by the ordered categorical index. -/
noncomputable def summary_df (df_in : List (List ℝ)) (kw : SummaryKwargs) :
    Except PdError SummaryTable :=
  if kw.extra ≠ [] then .error (.typeError "Unexpected kwargs")
  else if tvShapeBad df_in kw.true_values then
    .error (.assertionError "There should be one true value for every column!")
  else
    let base : SummaryTable :=
      [(("mean", "value"), meanRow df_in), (("std", "value"), stdRow df_in)]
    let withTV : Except PdError SummaryTable :=
      if kw.include_true_values then
        match kw.true_values with
        | none => .error (.assertionError "assert true_values is not None")
        | some tv => .ok (base ++ [(("true values", "value"), tv)])
      else .ok base
    match withTV with
    | .error e => .error e
    | .ok base2 =>
      let num_cals := df_in.length
      let mean_unc := (stdRow df_in).map (fun s => s / Real.sqrt num_cals)
      if 2 * ((num_cals : ℤ) - 1) = 0 then .error .zeroDivisionError
      else
        let std_unc := (stdRow df_in).map
          (fun s => s * Real.sqrt (1 / ((2 * ((num_cals : ℤ) - 1) : ℤ) : ℝ)))
        let tbl := base2 ++ [(("mean", "uncertainty"), mean_unc),
                             (("std", "uncertainty"), std_unc)]
        if kw.include_rmse then
          match kw.true_values with
          | none => .error (.assertionError "Need to input true values for RMSE!")
          | some tv =>
            match rmse_and_unc df_in tv with
            | .error e => .error e
            | .ok ru => .ok (sortTable (tbl ++ [(("rmse", "value"), ru.1),
                                                (("rmse", "uncertainty"), ru.2)]))
        else .ok (sortTable tbl)

/-- `summary_df_from_array(results_array, names, axis, **kwargs)`:
asserts the axis flag, transposes for `axis=1`, assigns the column names
(a pandas `ValueError` on a length mismatch), and calls `summary_df`. -/
noncomputable def summary_df_from_array (results_array : List (List ℝ))
    (names : List String) (axis : ℕ) (kw : SummaryKwargs) :
    Except PdError SummaryTable :=
  if ¬ (axis = 0 ∨ axis = 1) then .error (.assertionError "axis == 0 or axis == 1")
  else
    let rows := if axis = 1 then results_array.transpose else results_array
    if names.length ≠ ncols rows then .error (.valueError "Length mismatch for columns")
    else summary_df rows kw

/-- `summary_df_from_list(results_list, names, **kwargs)`: asserts every
array has shape `(len(names),)`, stacks them (`np.stack` fails on an
empty list), and calls `summary_df`. -/
noncomputable def summary_df_from_list (results_list : List (List ℝ))
    (names : List String) (kw : SummaryKwargs) : Except PdError SummaryTable :=
  if results_list.any (fun arr => arr.length ≠ names.length) then
    .error (.assertionError "arr.shape == (len(names),)")
  else if results_list.isEmpty then
    .error (.valueError "need at least one array to stack")
  else summary_df results_list kw

/-- `df.loc[key]` on a summary table: look up the row vector at a key
(every key looked up by the source exists in its table). -/
def lookupRow (t : SummaryTable) (k : String × String) : List ℝ :=
  (t.lookup k).getD []

/-- Elementwise division of two aligned rows. -/
noncomputable def vdiv (a b : List ℝ) : List ℝ := List.zipWith (fun x y => x / y) a b

/-- Elementwise product of two aligned rows. -/
noncomputable def vmul (a b : List ℝ) : List ℝ := List.zipWith (fun x y => x * y) a b

/-- A scalar multiple of a row. -/
noncomputable def vscale (c : ℝ) (a : List ℝ) : List ℝ := a.map (fun x => c * x)

/-- `row *= adjust` for a pandas row of length `C` and a numpy vector
`adjust`: numpy broadcasting multiplies elementwise when the lengths
match and broadcasts a length-one `adjust` over the row; any other
combination fails with a `ValueError`. -/
noncomputable def broadcastMul (row adj : List ℝ) : Except PdError (List ℝ) :=
  if adj.length = 1 then .ok (row.map (fun x => x * adj.getD 0 0))
  else if adj.length = row.length then .ok (vmul row adj)
  else .error (.valueError "operands could not be broadcast together")

/-- The statistics tracked by the gain loop of `efficiency_gain_df`:
always `std`, plus `rmse` when `include_rmse`. -/
def gainStats (include_rmse : Bool) : List String :=
  if include_rmse then ["std", "rmse"] else ["std"]

/-- The `for stat in stats` loop of `efficiency_gain_df`: for each tracked
statistic, compute the elementwise ratio of the baseline's value row to
this method's value row and its propagated uncertainty
(`array_ratio_std`), and append the `<stat> efficiency gain` value
(`ratio ** 2`) and uncertainty (`2 * ratio * ratio_unc`) rows; when
`adjust_nsamp` was supplied, both new rows are multiplied (numpy
broadcasting) by the vector `adjust_nsamp[0] / adjust_nsamp[1:]`. -/
noncomputable def addGains (df0 : SummaryTable) (adjust_nsamp : Option (List ℝ)) :
    List String → SummaryTable → Except PdError SummaryTable
  | [], df => .ok df
  | stat :: rest, df =>
    let ratio := vdiv (lookupRow df0 (stat, "value")) (lookupRow df (stat, "value"))
    let ratio_unc := array_ratio_std
      (lookupRow df0 (stat, "value")) (lookupRow df0 (stat, "uncertainty"))
      (lookupRow df (stat, "value")) (lookupRow df (stat, "uncertainty"))
    let key := stat ++ " efficiency gain"
    let gainVal := vmul ratio ratio
    let gainUnc := vscale 2 (vmul ratio ratio_unc)
    match adjust_nsamp with
    | none => addGains df0 none rest
        (df ++ [((key, "value"), gainVal), ((key, "uncertainty"), gainUnc)])
    | some a =>
      let adjust := (a.drop 1).map (fun x => a.getD 0 0 / x)
      match broadcastMul gainVal adjust with
      | .error e => .error e
      | .ok gv =>
        match broadcastMul gainUnc adjust with
        | .error e => .error e
        | .ok gu => addGains df0 (some a) rest
            (df ++ [((key, "value"), gv), ((key, "uncertainty"), gu)])

/-- One non-baseline iteration of the method loop of `efficiency_gain_df`:
build the method's summary table (`summary_df_from_list` with
`include_true_values=False`) and append its efficiency-gain rows. -/
noncomputable def effMethodDf (df0 : SummaryTable) (vals : List (List ℝ))
    (est_names : List String) (tv : Option (List ℝ)) (irmse : Bool)
    (adj : Option (List ℝ)) : Except PdError SummaryTable :=
  match summary_df_from_list vals est_names ⟨tv, false, irmse, []⟩ with
  | .error e => .error e
  | .ok df => addGains df0 adj (gainStats irmse) df

/-- The `for i, method_name in enumerate(method_names)` loop for the
non-baseline methods (`i >= 1`): each method name is processed with the
value list `method_values[i]` at its running index. -/
noncomputable def effDfsAux (df0 : SummaryTable) (method_values : List (List (List ℝ)))
    (est_names : List String) (tv : Option (List ℝ)) (irmse : Bool)
    (adj : Option (List ℝ)) :
    ℕ → List String → Except PdError (List (String × SummaryTable))
  | _, [] => .ok []
  | i, name :: rest =>
    match effMethodDf df0 (method_values.getD i []) est_names tv irmse adj with
    | .error e => .error e
    | .ok df =>
      match effDfsAux df0 method_values est_names tv irmse adj (i + 1) rest with
      | .error e => .error e
      | .ok tail => .ok ((name, df) :: tail)

/-- A three-level efficiency-gain table: rows keyed by
(calculation type, dynamic settings, result type). -/
abbrev EffTable := List ((String × String × String) × List ℝ)

/-- The extended ordered `calculation type` categories used by
`efficiency_gain_df`. -/
def effCalcCats : List String :=
  ["true values", "mean", "std", "rmse", "std efficiency gain", "rmse efficiency gain"]

/-- Comparison of three-level keys by categorical rank: calculation type,
then dynamic settings (ordered as `[''] + method_names`), then result
type. -/
def key3le (method_names : List String) (a b : String × String × String) : Bool :=
  (effCalcCats.indexOf a.1 < effCalcCats.indexOf b.1) ||
    ((effCalcCats.indexOf a.1 = effCalcCats.indexOf b.1) &&
      ((("" :: method_names).indexOf a.2.1 < ("" :: method_names).indexOf b.2.1) ||
        ((("" :: method_names).indexOf a.2.1 = ("" :: method_names).indexOf b.2.1) &&
          (resCats.indexOf a.2.2 ≤ resCats.indexOf b.2.2))))

/-- The final `results.sort_index()` of `efficiency_gain_df`. -/
def sortEff (method_names : List String) (t : EffTable) : EffTable :=
  List.insertionSort (fun x y => key3le method_names x.1 y.1 = true) t

/-- `pd.concat(df_dict)` followed by the index-level reordering of
`efficiency_gain_df`: each method's summary rows reappear keyed by
(calculation type, method name, result type), methods in insertion
order. -/
def concatEff (dfs : List (String × SummaryTable)) : EffTable :=
  dfs.flatMap (fun p => p.2.map (fun e => ((e.1.1, p.1, e.1.2), e.2)))

/-- Does the supplied `adjust_nsamp` vector fail the shape assert of
`efficiency_gain_df` (one entry per method)? -/
def adjShapeBad (method_names : List String) : Option (List ℝ) → Bool
  | some a => a.length ≠ method_names.length
  | none => false

/-- `efficiency_gain_df(method_names, method_values, est_names, **kwargs)`.

In source order: reject unexpected keyword options; assert the
`adjust_nsamp` shape; assert that there are as many method names as value
lists; build each method's summary table, appending efficiency-gain rows
for every method after the first (the baseline); concatenate the
per-method tables (`pd.concat` fails on an empty dict), inject the single
`true values` row when `include_true_values`, and sort by the three-level
ordered categorical index. -/
noncomputable def efficiency_gain_df (method_names : List String)
    (method_values : List (List (List ℝ))) (est_names : List String)
    (kw : EffKwargs) : Except PdError EffTable :=
  if kw.extra ≠ [] then .error (.typeError "Unexpected kwargs")
  else if adjShapeBad method_names kw.adjust_nsamp then
    .error (.assertionError "adjust_nsamp.shape == (len(method_names),)")
  else if method_names.length ≠ method_values.length then
    .error (.assertionError "len(method_names) == len(method_values)")
  else
    match method_names with
    | [] => .error (.valueError "No objects to concatenate")
    | n0 :: rest =>
      match summary_df_from_list (method_values.getD 0 []) est_names
          ⟨kw.true_values, false, kw.include_rmse, []⟩ with
      | .error e => .error e
      | .ok df0 =>
        match effDfsAux df0 method_values est_names kw.true_values kw.include_rmse
            kw.adjust_nsamp 1 rest with
        | .error e => .error e
        | .ok tail =>
          let flat := concatEff ((n0, df0) :: tail)
          let flat2 := if kw.include_true_values then
              flat ++ [(("true values", "", "value"), kw.true_values.getD [])]
            else flat
          .ok (sortEff method_names flat2)

/-- The non-baseline method loop reformulated over explicit
(name, value-list) pairs instead of a running index. -/
noncomputable def effDfsZip (df0 : SummaryTable) (est_names : List String)
    (tv : Option (List ℝ)) (irmse : Bool) (adj : Option (List ℝ)) :
    List (String × List (List ℝ)) → Except PdError (List (String × SummaryTable))
  | [] => .ok []
  | (name, vals) :: rest =>
    match effMethodDf df0 vals est_names tv irmse adj with
    | .error e => .error e
    | .ok df =>
      match effDfsZip df0 est_names tv irmse adj rest with
      | .error e => .error e
      | .ok tail => .ok ((name, df) :: tail)

/-- Modelled from the claim's wording: `efficiency_gain_df` reformulated
over the pairs `method_names.zip method_values` (every method name paired
with exactly one value list, in order), with no length assert and no
index arithmetic. -/
noncomputable def efficiency_gain_df_zip (method_names : List String)
    (method_values : List (List (List ℝ))) (est_names : List String)
    (kw : EffKwargs) : Except PdError EffTable :=
  if kw.extra ≠ [] then .error (.typeError "Unexpected kwargs")
  else if adjShapeBad method_names kw.adjust_nsamp then
    .error (.assertionError "adjust_nsamp.shape == (len(method_names),)")
  else
    match method_names.zip method_values with
    | [] => .error (.valueError "No objects to concatenate")
    | (n0, v0) :: rest =>
      match summary_df_from_list v0 est_names
          ⟨kw.true_values, false, kw.include_rmse, []⟩ with
      | .error e => .error e
      | .ok df0 =>
        match effDfsZip df0 est_names kw.true_values kw.include_rmse
            kw.adjust_nsamp rest with
        | .error e => .error e
        | .ok tail =>
          let flat := concatEff ((n0, df0) :: tail)
          let flat2 := if kw.include_true_values then
              flat ++ [(("true values", "", "value"), kw.true_values.getD [])]
            else flat
          .ok (sortEff method_names flat2)

/-- The keys of a returned summary table (empty when an exception was
raised). -/
def resultKeys : Except PdError SummaryTable → List (String × String)
  | .ok t => t.map Prod.fst
  | .error _ => []

/-- The row vector of a returned summary table at a key. -/
def tableGet : Except PdError SummaryTable → (String × String) → List ℝ
  | .ok t, k => lookupRow t k
  | .error _, _ => []

/-- The row vector of a returned efficiency-gain table at a key. -/
def effTableGet : Except PdError EffTable → (String × String × String) → List ℝ
  | .ok t, k => (t.lookup k).getD []
  | .error _, _ => []

/-! ### Branch lemmas for `summary_df` -/

theorem summary_zero_div_guard_ne {n : ℕ} (h : n ≠ 1) : ¬ 2 * ((n : ℤ) - 1) = 0 := by
  omega

/-- `summary_df` with default options on a table that does not have exactly
one row: the four rows, in canonical sorted order. -/
theorem summary_df_ok_ff (rows : List (List ℝ)) (tv : Option (List ℝ))
    (htv : tvShapeBad rows tv = false) (hN : rows.length ≠ 1) :
    summary_df rows ⟨tv, false, false, []⟩ =
      .ok [(("mean", "value"), meanRow rows),
           (("mean", "uncertainty"),
             (stdRow rows).map (fun s => s / Real.sqrt rows.length)),
           (("std", "value"), stdRow rows),
           (("std", "uncertainty"), (stdRow rows).map (fun s =>
              s * Real.sqrt (1 / ((2 * ((rows.length : ℤ) - 1) : ℤ) : ℝ))))] := by
  simp only [summary_df, htv, if_neg (summary_zero_div_guard_ne hN)]
  simp only [ne_eq, not_true_eq_false, Bool.false_eq_true, if_false, ite_false,
    Bool.ite_eq_true_distrib]
  rfl

/-- `summary_df` with `include_rmse=True` and matching `true_values` on a
table that does not have exactly one row: six rows in canonical order. -/
theorem summary_df_ok_rmse (rows : List (List ℝ)) (tv : List ℝ)
    (htv : tv.length = ncols rows) (hN : rows.length ≠ 1) :
    summary_df rows ⟨some tv, false, true, []⟩ =
      .ok [(("mean", "value"), meanRow rows),
           (("mean", "uncertainty"),
             (stdRow rows).map (fun s => s / Real.sqrt rows.length)),
           (("std", "value"), stdRow rows),
           (("std", "uncertainty"), (stdRow rows).map (fun s =>
              s * Real.sqrt (1 / ((2 * ((rows.length : ℤ) - 1) : ℤ) : ℝ)))),
           (("rmse", "value"), rmseRow rows tv),
           (("rmse", "uncertainty"), rmseUncRow rows tv)] := by
  simp only [summary_df, rmse_and_unc, tvShapeBad, htv,
    if_neg (summary_zero_div_guard_ne hN)]
  simp only [ne_eq, not_true_eq_false, Bool.false_eq_true, if_false, ite_false,
    decide_eq_true_eq, not_false_eq_true, decide_not]
  rfl

/-- `summary_df` with `include_true_values=True`, `include_rmse=True` and
matching `true_values` on a table that does not have exactly one row:
seven rows in canonical order, `true values` first. -/
theorem summary_df_ok_full (rows : List (List ℝ)) (tv : List ℝ)
    (htv : tv.length = ncols rows) (hN : rows.length ≠ 1) :
    summary_df rows ⟨some tv, true, true, []⟩ =
      .ok [(("true values", "value"), tv),
           (("mean", "value"), meanRow rows),
           (("mean", "uncertainty"),
             (stdRow rows).map (fun s => s / Real.sqrt rows.length)),
           (("std", "value"), stdRow rows),
           (("std", "uncertainty"), (stdRow rows).map (fun s =>
              s * Real.sqrt (1 / ((2 * ((rows.length : ℤ) - 1) : ℤ) : ℝ)))),
           (("rmse", "value"), rmseRow rows tv),
           (("rmse", "uncertainty"), rmseUncRow rows tv)] := by
  simp only [summary_df, rmse_and_unc, tvShapeBad, htv,
    if_neg (summary_zero_div_guard_ne hN)]
  simp only [ne_eq, not_true_eq_false, Bool.false_eq_true, if_false, ite_false,
    decide_eq_true_eq, not_false_eq_true, decide_not]
  rfl

/-! ### The categorical key order is a total preorder -/

theorem key2le_total (a b : String × String) :
    key2le a b = true ∨ key2le b a = true := by
  simp only [key2le, Bool.or_eq_true, Bool.and_eq_true, decide_eq_true_eq]
  omega

theorem key2le_trans (a b c : String × String) (hab : key2le a b = true)
    (hbc : key2le b c = true) : key2le a c = true := by
  simp only [key2le, Bool.or_eq_true, Bool.and_eq_true, decide_eq_true_eq] at *
  omega

instance : IsTotal ((String × String) × List ℝ) entryLe :=
  ⟨fun a b => key2le_total a.1 b.1⟩

instance : IsTrans ((String × String) × List ℝ) entryLe :=
  ⟨fun a b c hab hbc => key2le_trans a.1 b.1 c.1 hab hbc⟩

/-- The keys of any sorted summary table are sorted under the categorical
key order. -/
theorem sortTable_keys_sorted (t : SummaryTable) :
    List.Sorted (fun a b => key2le a b = true) ((sortTable t).map Prod.fst) := by
  rw [List.Sorted, List.pairwise_map]
  exact List.sorted_insertionSort entryLe t

/-- Every table `summary_df` returns was passed through the final
`sort_index`. -/
theorem summary_df_ok_sortTable (rows : List (List ℝ)) (kw : SummaryKwargs)
    (t : SummaryTable) (h : summary_df rows kw = Except.ok t) :
    ∃ u, t = sortTable u := by
  unfold summary_df at h
  repeat'
    first
      | split at h
      | simp only [] at h
  all_goals
    first
      | exact ⟨_, (Except.ok.inj h).symm⟩
      | exact absurd h (by simp)

/-- C4: Every table returned by `summary_df` is sorted into the canonical
row order: CalculationType in the fixed order
(true values, mean, std, rmse) and, within each CalculationType,
`value` before `uncertainty` — for every combination of options,
regardless of the insertion order during construction. -/
theorem C4_summary_df_canonical_sort (rows : List (List ℝ)) (kw : SummaryKwargs) :
    List.Sorted (fun a b => key2le a b = true) (resultKeys (summary_df rows kw)) := by
  rcases hres : summary_df rows kw with e | t
  · exact List.sorted_nil
  · obtain ⟨u, rfl⟩ := summary_df_ok_sortTable rows kw t hres
    exact sortTable_keys_sorted u

/-- For a nonempty rectangular table, `ncols` is the common row length. -/
theorem ncols_eq_of_rect {rows : List (List ℝ)} {C : ℕ}
    (hrect : ∀ r ∈ rows, r.length = C) (hne : rows ≠ []) : ncols rows = C := by
  rcases rows with _ | ⟨r, rest⟩
  · exact absurd rfl hne
  · exact hrect r (List.mem_cons_self r rest)

theorem int_cast_two_mul_sub_one (n : ℕ) :
    ((2 * ((n : ℤ) - 1) : ℤ) : ℝ) = 2 * ((n : ℝ) - 1) := by
  push_cast
  ring

/-- C2: For every raw table with `N ≥ 2` repeat rows and `C` columns and
no true values injected, `summary_df` returns a table whose
`(mean, value)` row is the columnwise mean, whose `(std, value)` row is
the columnwise `ddof=1` sample standard deviation, whose
`(mean, uncertainty)` row is the `(std, value)` row divided by `sqrt N`,
and whose `(std, uncertainty)` row is the `(std, value)` row times
`sqrt (1 / (2 * (N - 1)))`. -/
theorem C2_summary_core_statistics (rows : List (List ℝ)) (C : ℕ)
    (hrect : ∀ r ∈ rows, r.length = C) (hN : 2 ≤ rows.length) :
    resultKeys (summary_df rows ⟨none, false, false, []⟩) =
        [("mean", "value"), ("mean", "uncertainty"),
         ("std", "value"), ("std", "uncertainty")] ∧
      tableGet (summary_df rows ⟨none, false, false, []⟩) ("mean", "value") =
        (List.range C).map (fun j => npMean (column j rows)) ∧
      tableGet (summary_df rows ⟨none, false, false, []⟩) ("std", "value") =
        (List.range C).map (fun j => npStd (column j rows)) ∧
      tableGet (summary_df rows ⟨none, false, false, []⟩) ("mean", "uncertainty") =
        (tableGet (summary_df rows ⟨none, false, false, []⟩) ("std", "value")).map
          (fun s => s / Real.sqrt rows.length) ∧
      tableGet (summary_df rows ⟨none, false, false, []⟩) ("std", "uncertainty") =
        (tableGet (summary_df rows ⟨none, false, false, []⟩) ("std", "value")).map
          (fun s => s * Real.sqrt (1 / (2 * ((rows.length : ℝ) - 1)))) := by
  have hC : ncols rows = C :=
    ncols_eq_of_rect hrect (by rintro rfl; simp at hN)
  have h := summary_df_ok_ff rows none rfl (by omega)
  rw [h]
  refine ⟨rfl, ?_, ?_, ?_, ?_⟩
  · show meanRow rows = _
    rw [meanRow, hC]
  · show stdRow rows = _
    rw [stdRow, hC]
  · rfl
  · show (stdRow rows).map _ = (stdRow rows).map _
    rw [int_cast_two_mul_sub_one]

/-- Witness for C2 on a concrete two-repeat, one-column table. -/
theorem C2_witness :
    resultKeys (summary_df [[(1 : ℝ)], [3]] ⟨none, false, false, []⟩) =
      [("mean", "value"), ("mean", "uncertainty"),
       ("std", "value"), ("std", "uncertainty")] :=
  (C2_summary_core_statistics [[(1 : ℝ)], [3]] 1 (by decide) (by decide)).1

/-- C3: `rmse_and_unc` fails when the true-value vector's length differs
from the column count; otherwise it returns, per column,
`RMSE = sqrt(mean((value - true)^2))` and the uncertainty
`0.5 * u / RMSE` with `u` the `ddof=1` sample standard deviation of the
squared errors divided by `sqrt N`. -/
theorem C3_rmse_and_unc_spec (rows : List (List ℝ)) (tv : List ℝ) :
    (tv.length ≠ ncols rows →
      rmse_and_unc rows tv =
        .error (.assertionError "true_values.shape == (values_array.shape[1],)")) ∧
    (tv.length = ncols rows →
      rmse_and_unc rows tv =
        .ok ((List.range (ncols rows)).map
               (fun j => Real.sqrt (npMean (sqErrColumn j rows tv))),
             (List.range (ncols rows)).map
               (fun j => 0.5 * (npStd (sqErrColumn j rows tv) / Real.sqrt rows.length) /
                  Real.sqrt (npMean (sqErrColumn j rows tv))))) := by
  constructor
  · intro hne
    simp [rmse_and_unc, hne]
  · intro heq
    rw [rmse_and_unc, if_neg (not_not_intro heq)]
    simp [rmseRow, rmseUncRow]
    exact fun a _ => by ring

/-- Witness for C3: the shape failure and the success formulas at concrete
inputs. -/
theorem C3_witness :
    rmse_and_unc [[(1 : ℝ)], [2]] [0, 0] =
      .error (.assertionError "true_values.shape == (values_array.shape[1],)") ∧
    rmse_and_unc [[(1 : ℝ)], [2]] [0] =
      .ok ((List.range (ncols [[(1 : ℝ)], [2]])).map
             (fun j => Real.sqrt (npMean (sqErrColumn j [[(1 : ℝ)], [2]] [0]))),
           (List.range (ncols [[(1 : ℝ)], [2]])).map
             (fun j => 0.5 * (npStd (sqErrColumn j [[(1 : ℝ)], [2]] [0]) /
                  Real.sqrt ([[(1 : ℝ)], [2]] : List (List ℝ)).length) /
                Real.sqrt (npMean (sqErrColumn j [[(1 : ℝ)], [2]] [0])))) :=
  ⟨(C3_rmse_and_unc_spec [[(1 : ℝ)], [2]] [0, 0]).1 (by decide),
   (C3_rmse_and_unc_spec [[(1 : ℝ)], [2]] [0]).2 (by decide)⟩

/-- C6: For each public entry point, supplying a keyword option outside
the recognized set fails with the unexpected-option `TypeError` and no
table is produced; the unrecognized option is never silently ignored. -/
theorem C6_unexpected_kwargs (rows vals : List (List ℝ))
    (names : List String) (axis : ℕ) (tv : Option (List ℝ)) (itv irmse : Bool)
    (adj : Option (List ℝ)) (mnames : List String)
    (mvalues : List (List (List ℝ))) (extra : List String) (hextra : extra ≠ []) :
    summary_df rows ⟨tv, itv, irmse, extra⟩ =
        .error (.typeError "Unexpected kwargs") ∧
      ((axis = 0 ∨ axis = 1) →
        names.length = ncols (if axis = 1 then rows.transpose else rows) →
        summary_df_from_array rows names axis ⟨tv, itv, irmse, extra⟩ =
          .error (.typeError "Unexpected kwargs")) ∧
      ((∀ arr ∈ vals, arr.length = names.length) → vals ≠ [] →
        summary_df_from_list vals names ⟨tv, itv, irmse, extra⟩ =
          .error (.typeError "Unexpected kwargs")) ∧
      efficiency_gain_df mnames mvalues names ⟨tv, itv, irmse, adj, extra⟩ =
        .error (.typeError "Unexpected kwargs") := by
  refine ⟨by simp [summary_df, hextra], ?_, ?_, by simp [efficiency_gain_df, hextra]⟩
  · intro hax hlen
    rw [summary_df_from_array, if_neg (not_not_intro hax)]
    simp only
    rw [if_neg (not_not_intro hlen)]
    simp [summary_df, hextra]
  · intro hsh hne
    have h1 : vals.any (fun arr => arr.length ≠ names.length) = false := by
      rw [List.any_eq_false]
      intro a ha
      simp [hsh a ha]
    rw [summary_df_from_list, h1]
    simp only [Bool.false_eq_true, if_false]
    rw [if_neg (by simp [hne])]
    simp [summary_df, hextra]

/-- Witness for C6 at concrete inputs for all four entry points. -/
theorem C6_witness :
    summary_df [[(1 : ℝ)], [2]] ⟨none, false, false, ["unexpected"]⟩ =
        .error (.typeError "Unexpected kwargs") ∧
      summary_df_from_array [[(1 : ℝ)], [2]] ["a"] 0
          ⟨none, false, false, ["unexpected"]⟩ =
        .error (.typeError "Unexpected kwargs") ∧
      summary_df_from_list [[(1 : ℝ)], [2]] ["a"]
          ⟨none, false, false, ["unexpected"]⟩ =
        .error (.typeError "Unexpected kwargs") ∧
      efficiency_gain_df ["m"] [[[(1 : ℝ)], [2]]] ["a"]
          ⟨none, false, false, none, ["unexpected"]⟩ =
        .error (.typeError "Unexpected kwargs") := by
  obtain ⟨h1, h2, h3, h4⟩ := C6_unexpected_kwargs [[(1 : ℝ)], [2]] [[(1 : ℝ)], [2]]
    ["a"] 0 none false false none ["m"] [[[(1 : ℝ)], [2]]] ["unexpected"] (by simp)
  exact ⟨h1, h2 (Or.inl rfl) (by decide), h3 (by decide) (by simp), h4⟩

/-- C7 counterexample: on a single-row table, `summary_df` with
`include_rmse=True` and no `true_values` fails with `ZeroDivisionError`
(raised at `1 / (2 * (num_cals - 1))`, before the RMSE validation assert
is reached), not with the validation error the claim states. -/
theorem C7_counterexample :
    summary_df [[(1 : ℝ)]] ⟨none, false, true, []⟩ =
        .error .zeroDivisionError ∧
      summary_df [[(1 : ℝ)]] ⟨none, false, true, []⟩ ≠
        .error (.assertionError "Need to input true values for RMSE!") := by
  refine ⟨rfl, ?_⟩
  rw [show summary_df [[(1 : ℝ)]] ⟨none, false, true, []⟩ =
        .error .zeroDivisionError from rfl]
  simp

/-- C7 amended: `include_true_values=True` without `true_values` always
fails with the validation assert; `include_rmse=True` without
`true_values` fails with the validation assert for every table that does
not have exactly one row, and with `ZeroDivisionError` for single-row
tables; in every case no summary table is returned. -/
theorem C7_missing_true_values (rows : List (List ℝ)) (irmse : Bool) :
    summary_df rows ⟨none, true, irmse, []⟩ =
        .error (.assertionError "assert true_values is not None") ∧
      (rows.length ≠ 1 →
        summary_df rows ⟨none, false, true, []⟩ =
          .error (.assertionError "Need to input true values for RMSE!")) ∧
      (rows.length = 1 →
        summary_df rows ⟨none, false, true, []⟩ = .error .zeroDivisionError) := by
  refine ⟨by simp [summary_df, tvShapeBad], ?_, ?_⟩
  · intro hN
    simp [summary_df, tvShapeBad, if_neg (summary_zero_div_guard_ne hN)]
    omega
  · intro hN
    simp [summary_df, tvShapeBad, hN]

/-- Witness for C7 (amended) at concrete inputs. -/
theorem C7_witness :
    summary_df [[(1 : ℝ)], [2]] ⟨none, true, false, []⟩ =
        .error (.assertionError "assert true_values is not None") ∧
      summary_df [[(1 : ℝ)], [2]] ⟨none, false, true, []⟩ =
        .error (.assertionError "Need to input true values for RMSE!") ∧
      summary_df [[(3 : ℝ)]] ⟨none, false, true, []⟩ =
        .error .zeroDivisionError :=
  ⟨(C7_missing_true_values [[(1 : ℝ)], [2]] false).1,
   (C7_missing_true_values [[(1 : ℝ)], [2]] false).2.1 (by decide),
   (C7_missing_true_values [[(3 : ℝ)]] false).2.2 (by decide)⟩

/-- C10 counterexample: on a single-row table `summary_df` does not
return a table with a `mean`/`value` row and NaN uncertainties — it
raises (`ZeroDivisionError`). -/
theorem C10_counterexample :
    summary_df [[(5 : ℝ)]] ⟨none, false, false, []⟩ =
      .error .zeroDivisionError := rfl

/-- C10 amended: for every single-row input table, `summary_df` raises
`ZeroDivisionError` while computing the std-uncertainty factor
`1 / (2 * (num_cals - 1))` (Python integer division with denominator
`2 * (1 - 1) = 0`); no table is returned. -/
theorem C10_single_row_zero_division (r : List ℝ) :
    summary_df [r] ⟨none, false, false, []⟩ = .error .zeroDivisionError := by
  simp [summary_df, tvShapeBad]

/-! ### Permutation invariance machinery -/

theorem npMean_perm {xs ys : List ℝ} (h : xs.Perm ys) : npMean xs = npMean ys := by
  unfold npMean
  rw [h.length_eq, h.sum_eq]

theorem npVar_perm {xs ys : List ℝ} (h : xs.Perm ys) : npVar xs = npVar ys := by
  unfold npVar
  rw [h.length_eq, (h.map (fun x => (x - npMean xs) ^ 2)).sum_eq]
  simp only [npMean_perm h]

theorem npStd_perm {xs ys : List ℝ} (h : xs.Perm ys) : npStd xs = npStd ys := by
  unfold npStd
  rw [npVar_perm h]

theorem column_perm {rows rows' : List (List ℝ)} (h : rows.Perm rows') (j : ℕ) :
    (column j rows).Perm (column j rows') := h.map _

theorem ncols_perm {rows rows' : List (List ℝ)} {C : ℕ} (h : rows.Perm rows')
    (hrect : ∀ r ∈ rows, r.length = C) : ncols rows' = ncols rows := by
  cases rows with
  | nil =>
    rw [h.symm.eq_nil]
  | cons a l =>
    cases rows' with
    | nil => exact absurd h.eq_nil (by simp)
    | cons b m =>
      show b.length = a.length
      rw [hrect a (List.mem_cons_self a l), hrect b (h.mem_iff.2 (List.mem_cons_self b m))]

/-- `summary_df` depends on the input table only through
permutation-invariant columnwise statistics, so permuting the repeat rows
of a rectangular table leaves its output unchanged. -/
theorem summary_df_perm {rows rows' : List (List ℝ)} {C : ℕ}
    (h : rows.Perm rows') (hrect : ∀ r ∈ rows, r.length = C) (kw : SummaryKwargs) :
    summary_df rows' kw = summary_df rows kw := by
  have hn : ncols rows' = ncols rows := ncols_perm h hrect
  have hlen : rows'.length = rows.length := h.symm.length_eq
  have hcol : ∀ j, (column j rows').Perm (column j rows) :=
    fun j => column_perm h.symm j
  have hmean : meanRow rows' = meanRow rows := by
    unfold meanRow
    rw [hn]
    simp only [show (fun j => npMean (column j rows')) =
      (fun j => npMean (column j rows)) from funext fun j => npMean_perm (hcol j)]
  have hstd : stdRow rows' = stdRow rows := by
    unfold stdRow
    rw [hn]
    simp only [show (fun j => npStd (column j rows')) =
      (fun j => npStd (column j rows)) from funext fun j => npStd_perm (hcol j)]
  have hsq : ∀ tv j, (sqErrColumn j rows' tv).Perm (sqErrColumn j rows tv) :=
    fun tv j => (hcol j).map _
  have hrr : ∀ tv, rmseRow rows' tv = rmseRow rows tv := by
    intro tv
    unfold rmseRow
    rw [hn]
    simp only [show (fun j => Real.sqrt (npMean (sqErrColumn j rows' tv))) =
      (fun j => Real.sqrt (npMean (sqErrColumn j rows tv))) from
        funext fun j => by rw [npMean_perm (hsq tv j)]]
  have hrru : ∀ tv, rmseUncRow rows' tv = rmseUncRow rows tv := by
    intro tv
    unfold rmseUncRow
    rw [hn, hlen]
    simp only [show (fun j => 0.5 * (1 / Real.sqrt (npMean (sqErrColumn j rows' tv))) *
        (npStd (sqErrColumn j rows' tv) / Real.sqrt rows.length)) =
      (fun j => 0.5 * (1 / Real.sqrt (npMean (sqErrColumn j rows tv))) *
        (npStd (sqErrColumn j rows tv) / Real.sqrt rows.length)) from
        funext fun j => by rw [npMean_perm (hsq tv j), npStd_perm (hsq tv j)]]
  have hru : ∀ tv, rmse_and_unc rows' tv = rmse_and_unc rows tv := by
    intro tv
    unfold rmse_and_unc
    rw [hn, hrr, hrru]
  have htvb : tvShapeBad rows' kw.true_values = tvShapeBad rows kw.true_values := by
    cases kw.true_values <;> simp [tvShapeBad, hn]
  unfold summary_df
  simp only [htvb, hmean, hstd, hlen, hru]

/-- C5 counterexample: at a one-row input with
`include_true_values=True`, `include_rmse=True` and a matching true-value
vector, `summary_df` returns no table at all (it raises
`ZeroDivisionError`), so the claimed 7-row table does not exist for every
raw table. -/
theorem C5_counterexample :
    summary_df [[(1 : ℝ), 0, 2]] ⟨some [0, 0, 0], true, true, []⟩ =
      .error .zeroDivisionError := rfl

/-- C5 amended: for a rectangular table with at least two repeat rows,
`include_true_values=True`, `include_rmse=True` and a matching true-value
vector, `summary_df` returns exactly the seven canonical
(CalculationType, ResultType) rows, and its output is identical for every
permutation of the input's repeat rows (single-row inputs instead raise
`ZeroDivisionError`). -/
theorem C5_seven_rows_and_permutation_invariance (rows : List (List ℝ)) (C : ℕ)
    (tv : List ℝ) (hrect : ∀ r ∈ rows, r.length = C) (htv : tv.length = C)
    (hN : 2 ≤ rows.length) :
    resultKeys (summary_df rows ⟨some tv, true, true, []⟩) =
        [("true values", "value"), ("mean", "value"), ("mean", "uncertainty"),
         ("std", "value"), ("std", "uncertainty"),
         ("rmse", "value"), ("rmse", "uncertainty")] ∧
      ∀ rows' : List (List ℝ), rows.Perm rows' →
        summary_df rows' ⟨some tv, true, true, []⟩ =
          summary_df rows ⟨some tv, true, true, []⟩ := by
  have hC : ncols rows = C :=
    ncols_eq_of_rect hrect (by rintro rfl; simp at hN)
  constructor
  · rw [summary_df_ok_full rows tv (hC ▸ htv) (by omega)]
    rfl
  · intro rows' hp
    exact summary_df_perm hp hrect _

/-- Witness for C5 (amended) on a concrete two-repeat table and a
transposition of its rows. -/
theorem C5_witness :
    resultKeys (summary_df [[(1 : ℝ)], [2]] ⟨some [0], true, true, []⟩) =
        [("true values", "value"), ("mean", "value"), ("mean", "uncertainty"),
         ("std", "value"), ("std", "uncertainty"),
         ("rmse", "value"), ("rmse", "uncertainty")] ∧
      summary_df [[(2 : ℝ)], [1]] ⟨some [0], true, true, []⟩ =
        summary_df [[(1 : ℝ)], [2]] ⟨some [0], true, true, []⟩ :=
  ⟨(C5_seven_rows_and_permutation_invariance [[(1 : ℝ)], [2]] 1 [0]
      (by decide) (by decide) (by decide)).1,
   (C5_seven_rows_and_permutation_invariance [[(1 : ℝ)], [2]] 1 [0]
      (by decide) (by decide) (by decide)).2 [[(2 : ℝ)], [1]]
      (List.Perm.swap [(2 : ℝ)] [(1 : ℝ)] [])⟩

/-- C1 (code bug): the source computes
`adjust = adjust_nsamp[0] / adjust_nsamp[1:]` — a length-(M-1) vector —
and multiplies every non-baseline gain row by it, instead of the claimed
per-method scalar `adjust_nsamp[0] / adjust_nsamp[i]`.  With three
methods of identical values over three estimators and
`adjust_nsamp = [1, 2, 4]`, each gain row (length 3) is multiplied by the
length-2 vector `[1/2, 1/4]` and the call fails with a numpy broadcast
`ValueError` instead of returning the rescaled gains. -/
theorem C1_adjust_nsamp_broadcast_bug :
    efficiency_gain_df ["m0", "m1", "m2"]
      [[[0, 10, 20], [1, 11, 21], [2, 12, 22]],
       [[0, 10, 20], [1, 11, 21], [2, 12, 22]],
       [[(0 : ℝ), 10, 20], [1, 11, 21], [2, 12, 22]]]
      ["a", "b", "c"] ⟨none, false, false, some [1, 2, 4], []⟩ =
    .error (.valueError "operands could not be broadcast together") := rfl

/-- The indexed non-baseline method loop equals the loop over the
remaining (name, value-list) pairs whenever the running index stays in
range. -/
theorem effDfsAux_eq_zip (df0 : SummaryTable) (mv : List (List (List ℝ)))
    (est : List String) (tv : Option (List ℝ)) (irmse : Bool)
    (adj : Option (List ℝ)) (rest : List String) :
    ∀ i : ℕ, rest.length = (mv.drop i).length →
      effDfsAux df0 mv est tv irmse adj i rest =
        effDfsZip df0 est tv irmse adj (rest.zip (mv.drop i)) := by
  induction rest with
  | nil => intro i _; rfl
  | cons name rest' ih =>
    intro i hlen
    rcases hd : mv.drop i with _ | ⟨v, vs⟩
    · rw [hd] at hlen
      simp at hlen
    · have hi : i < mv.length := by
        by_contra hcon
        rw [List.drop_eq_nil_of_le (Nat.le_of_not_lt hcon)] at hd
        simp at hd
      have hcons := (List.drop_eq_getElem_cons hi).symm.trans hd
      have hv : mv[i] = v := (List.cons.inj hcons).1
      have hvs : mv.drop (i + 1) = vs := (List.cons.inj hcons).2
      have hget : mv.getD i [] = v := (List.getD_eq_getElem mv [] hi).trans hv
      have hlen' : rest'.length = (mv.drop (i + 1)).length := by
        rw [hvs]
        rw [hd] at hlen
        simpa using hlen
      rw [List.zip_cons_cons]
      simp only [effDfsAux, effDfsZip]
      rw [hget, ih (i + 1) hlen', hvs]

/-- C9: `efficiency_gain_df` fails immediately whenever the number of
method names differs from the number of per-method value lists; under the
precondition that the two lengths are equal the check never fires and the
computation coincides with processing `method_names.zip method_values` —
every method name paired with exactly one value list, in order. -/
theorem C9_method_name_value_pairing (method_names : List String)
    (method_values : List (List (List ℝ))) (est_names : List String)
    (tv : Option (List ℝ)) (itv irmse : Bool) (adj : Option (List ℝ))
    (hadj : adjShapeBad method_names adj = false) :
    (method_names.length ≠ method_values.length →
      efficiency_gain_df method_names method_values est_names
          ⟨tv, itv, irmse, adj, []⟩ =
        .error (.assertionError "len(method_names) == len(method_values)")) ∧
      (method_names.length = method_values.length →
        efficiency_gain_df method_names method_values est_names
            ⟨tv, itv, irmse, adj, []⟩ =
          efficiency_gain_df_zip method_names method_values est_names
            ⟨tv, itv, irmse, adj, []⟩) := by
  constructor
  · intro hne
    rw [efficiency_gain_df.eq_def]
    simp [hadj, hne]
  · intro heq
    rw [efficiency_gain_df.eq_def, efficiency_gain_df_zip.eq_def]
    simp only [hadj, Bool.false_eq_true, if_false, ne_eq, not_true_eq_false]
    rw [if_neg (not_not_intro heq)]
    cases method_names with
    | nil =>
      cases method_values with
      | nil => rfl
      | cons v0 vs => simp at heq
    | cons n0 rest =>
      cases method_values with
      | nil => simp at heq
      | cons v0 vs =>
        rw [List.zip_cons_cons, show (v0 :: vs).getD 0 [] = v0 from rfl]
        rcases hdf0 : summary_df_from_list v0 est_names ⟨tv, false, irmse, []⟩
          with e | df0 <;>
          simp only [hdf0]
        rw [effDfsAux_eq_zip df0 (v0 :: vs) est_names tv irmse adj rest 1
          (by simpa using heq)]
        simp [List.drop_succ_cons]

/-- Witness for C9 at concrete inputs for both conjuncts. -/
theorem C9_witness :
    efficiency_gain_df ["a", "b"] [[[(1 : ℝ)], [2]]] ["e"]
        ⟨none, false, false, none, []⟩ =
      .error (.assertionError "len(method_names) == len(method_values)") ∧
    efficiency_gain_df ["a"] [[[(1 : ℝ)], [2]]] ["e"]
        ⟨none, false, false, none, []⟩ =
      efficiency_gain_df_zip ["a"] [[[(1 : ℝ)], [2]]] ["e"]
        ⟨none, false, false, none, []⟩ :=
  ⟨(C9_method_name_value_pairing ["a", "b"] [[[(1 : ℝ)], [2]]] ["e"]
      none false false none (by decide)).1 (by decide),
   (C9_method_name_value_pairing ["a"] [[[(1 : ℝ)], [2]]] ["e"]
      none false false none (by decide)).2 (by decide)⟩

/-- C8 counterexample: two identically-valued methods whose repeats are
constant in the single estimator column (std = 0).  The std efficiency
gain value is then `(0/0)^2` — NaN in float64, `0` in this real-number
model — and in particular not `1`, so the claim fails as stated. -/
theorem C8_counterexample :
    effTableGet (efficiency_gain_df ["a", "b"] [[[(1 : ℝ)], [1]], [[(1 : ℝ)], [1]]]
        ["e"] ⟨none, false, false, none, []⟩)
      ("std efficiency gain", "b", "value") ≠ [(1 : ℝ)] := by
  have hstd : npStd (column 0 [[(1 : ℝ)], [1]]) = 0 := by
    have hvar : npVar (column 0 [[(1 : ℝ)], [1]]) = 0 := by
      simp [npVar, npMean, column]
    rw [npStd, hvar, Real.sqrt_zero]
  have hval : effTableGet (efficiency_gain_df ["a", "b"]
      [[[(1 : ℝ)], [1]], [[(1 : ℝ)], [1]]] ["e"] ⟨none, false, false, none, []⟩)
      ("std efficiency gain", "b", "value") =
      [npStd (column 0 [[(1 : ℝ)], [1]]) / npStd (column 0 [[(1 : ℝ)], [1]]) *
        (npStd (column 0 [[(1 : ℝ)], [1]]) / npStd (column 0 [[(1 : ℝ)], [1]]))] := by
    rfl
  rw [hval, hstd]
  simp

/-! ### Association-list lookups are stable under key-nodup permutations -/

theorem lookup_perm_of_nodup_keys {α β : Type} [BEq α] [LawfulBEq α]
    {l₁ l₂ : List (α × β)} (h : l₁.Perm l₂) :
    (l₁.map Prod.fst).Nodup → ∀ k, l₁.lookup k = l₂.lookup k := by
  induction h with
  | nil => intro _ k; rfl
  | cons x h ih =>
    intro nd k
    obtain ⟨a, b⟩ := x
    simp only [List.map_cons, List.nodup_cons] at nd
    rw [List.lookup_cons, List.lookup_cons]
    cases hk : k == a
    · exact ih nd.2 k
    · rfl
  | swap x y l =>
    intro nd k
    obtain ⟨a, b⟩ := x
    obtain ⟨c, d⟩ := y
    simp only [List.map_cons, List.nodup_cons, List.mem_cons] at nd
    have hca : ¬ c = a := fun hc => nd.1 (Or.inl hc)
    rw [List.lookup_cons, List.lookup_cons, List.lookup_cons, List.lookup_cons]
    cases hk1 : k == c <;> cases hk2 : k == a <;>
      first
        | rfl
        | exact absurd ((eq_of_beq hk1).symm.trans (eq_of_beq hk2)) hca
  | trans h₁ h₂ ih₁ ih₂ =>
    intro nd k
    have nd₂ := ((h₁.map Prod.fst).nodup_iff).mp nd
    rw [ih₁ nd k, ih₂ nd₂ k]

/-! ### Nonnegativity of the variance and mean-squared-error -/

theorem npVar_nonneg (xs : List ℝ) : 0 ≤ npVar xs := by
  rcases xs with _ | ⟨a, l⟩
  · simp [npVar]
  · apply div_nonneg
    · apply List.sum_nonneg
      intro x hx
      obtain ⟨y, _, rfl⟩ := List.mem_map.1 hx
      positivity
    · have h1 : (1 : ℝ) ≤ ((a :: l).length : ℝ) := by
        have : 1 ≤ (a :: l).length := by simp
        exact_mod_cast this
      linarith

theorem npStd_ne_zero_of_var_ne {xs : List ℝ} (h : npVar xs ≠ 0) : npStd xs ≠ 0 := by
  have hpos : 0 < npVar xs := lt_of_le_of_ne (npVar_nonneg xs) (Ne.symm h)
  exact ne_of_gt (Real.sqrt_pos.mpr hpos)

theorem npMean_nonneg {xs : List ℝ} (h : ∀ x ∈ xs, 0 ≤ x) : 0 ≤ npMean xs :=
  div_nonneg (List.sum_nonneg h) (Nat.cast_nonneg _)

theorem sqrt_ne_zero_of_nonneg_ne {x : ℝ} (h0 : 0 ≤ x) (hne : x ≠ 0) :
    Real.sqrt x ≠ 0 :=
  ne_of_gt (Real.sqrt_pos.mpr (lt_of_le_of_ne h0 (Ne.symm hne)))

theorem sqErr_mean_nonneg (j : ℕ) (rows : List (List ℝ)) (tv : List ℝ) :
    0 ≤ npMean (sqErrColumn j rows tv) := by
  apply npMean_nonneg
  intro x hx
  obtain ⟨y, _, rfl⟩ := List.mem_map.1 hx
  positivity

/-- A nonzero-entry row divided by itself, squared elementwise, is a row
of ones. -/
theorem vmul_vdiv_self {xs : List ℝ} (h : ∀ x ∈ xs, x ≠ 0) :
    vmul (vdiv xs xs) (vdiv xs xs) = List.replicate xs.length 1 := by
  unfold vmul vdiv
  rw [List.zipWith_same, List.zipWith_same, List.map_map]
  rw [List.map_congr_left (g := fun _ => (1 : ℝ))
    (fun a ha => by
      simp only [Function.comp_apply]
      rw [div_self (h a ha)]
      norm_num)]
  rw [List.map_const']

theorem lookup_cons_ne {α β : Type} [BEq α] [LawfulBEq α] {k a : α} (b : β)
    (es : List (α × β)) (h : ¬ k = a) : ((a, b) :: es).lookup k = es.lookup k := by
  rw [List.lookup_cons, show (k == a) = false from beq_eq_false_iff_ne.mpr h]

theorem lookup_cons_eq {α β : Type} [BEq α] [LawfulBEq α] (a : α) (b : β)
    (es : List (α × β)) : ((a, b) :: es).lookup a = some b := by
  rw [List.lookup_cons, show (a == a) = true from beq_self_eq_true a]

/-- When the per-repeat arrays pass the shape asserts,
`summary_df_from_list` is `summary_df` on the stacked rows. -/
theorem summary_df_from_list_reduces (v : List (List ℝ)) (est : List String)
    (kw : SummaryKwargs) (hrect : ∀ r ∈ v, r.length = est.length)
    (hne : v ≠ []) : summary_df_from_list v est kw = summary_df v kw := by
  rw [summary_df_from_list]
  rw [show (v.any fun arr => arr.length ≠ est.length) = false by
    rw [List.any_eq_false]
    intro a ha
    simp [hrect a ha]]
  simp only [Bool.false_eq_true, if_false]
  rw [if_neg (by simp [hne])]

/-- `efficiency_gain_df` on two methods with the same value list: the
per-method summary tables are the baseline table `S` and `S` with its
gain rows `G`, concatenated and sorted. -/
theorem efficiency_gain_df_two_identical (n0 n1 : String) (v : List (List ℝ))
    (est : List String) (tv : Option (List ℝ)) (irmse : Bool)
    (S G : SummaryTable)
    (hS : summary_df_from_list v est ⟨tv, false, irmse, []⟩ = .ok S)
    (hG : addGains S none (gainStats irmse) S = .ok G) :
    efficiency_gain_df [n0, n1] [v, v] est ⟨tv, false, irmse, none, []⟩ =
      .ok (sortEff [n0, n1] (concatEff [(n0, S), (n1, G)])) := by
  have h0 : ([v, v] : List (List (List ℝ))).getD 0 [] = v := rfl
  have h1 : ([v, v] : List (List (List ℝ))).getD 1 [] = v := rfl
  rw [efficiency_gain_df.eq_def]
  simp only [effDfsAux, effMethodDf, h0, h1, hS, hG, adjShapeBad]
  simp

/-- Reading a row of a sorted efficiency-gain table with duplicate-free
keys equals looking the key up in the unsorted table. -/
theorem effTableGet_sortEff (names : List String) (flat : EffTable)
    (nd : (flat.map Prod.fst).Nodup) (k : String × String × String) :
    effTableGet (.ok (sortEff names flat)) k = (flat.lookup k).getD [] := by
  simp only [effTableGet, sortEff]
  rw [lookup_perm_of_nodup_keys
    (List.perm_insertionSort (fun x y => key3le names x.1 y.1 = true) flat)
    (((List.perm_insertionSort (fun x y => key3le names x.1 y.1 = true) flat).map
        Prod.fst).nodup_iff.mpr nd) k]

/-- C8 amended: for `efficiency_gain_df` on two distinctly named methods
with identical per-repeat value lists and no `adjust_nsamp`, provided the
statistics are nondegenerate (every column's `ddof=1` variance is
nonzero, and, when `include_rmse` is set, every column's mean squared
error is nonzero), every `<stat> efficiency gain` value row of the second
method equals 1 in every estimator column, for every tracked statistic. -/
theorem C8_identical_methods_gain_one (n0 n1 : String) (v : List (List ℝ))
    (est : List String) (tv : Option (List ℝ)) (irmse : Bool)
    (hn : n0 ≠ n1) (hrect : ∀ r ∈ v, r.length = est.length) (hne : v ≠ [])
    (hN : v.length ≠ 1) (htv : tvShapeBad v tv = false)
    (hvar : ∀ j < est.length, npVar (column j v) ≠ 0)
    (hrmse : irmse = true → ∃ t, tv = some t ∧ t.length = est.length ∧
      ∀ j < est.length, npMean (sqErrColumn j v t) ≠ 0) :
    effTableGet (efficiency_gain_df [n0, n1] [v, v] est ⟨tv, false, irmse, none, []⟩)
        ("std efficiency gain", n1, "value") = List.replicate est.length 1 ∧
      (irmse = true →
        effTableGet (efficiency_gain_df [n0, n1] [v, v] est
            ⟨tv, false, irmse, none, []⟩)
          ("rmse efficiency gain", n1, "value") = List.replicate est.length 1) := by
  have hC : ncols v = est.length := ncols_eq_of_rect hrect hne
  have hstdnz : ∀ x ∈ stdRow v, x ≠ 0 := by
    intro x hx
    obtain ⟨j, hj, rfl⟩ := List.mem_map.1 hx
    rw [List.mem_range, hC] at hj
    exact npStd_ne_zero_of_var_ne (hvar j hj)
  have hstdlen : (stdRow v).length = est.length := by
    rw [stdRow, List.length_map, List.length_range, hC]
  have hgain1 : vmul (vdiv (stdRow v) (stdRow v)) (vdiv (stdRow v) (stdRow v)) =
      List.replicate est.length 1 := by
    rw [vmul_vdiv_self hstdnz, hstdlen]
  cases irmse with
  | false =>
    refine ⟨?_, by simp⟩
    have hS : summary_df_from_list v est ⟨tv, false, false, []⟩ =
        .ok [(("mean", "value"), meanRow v),
             (("mean", "uncertainty"), (stdRow v).map (fun s => s / Real.sqrt v.length)),
             (("std", "value"), stdRow v),
             (("std", "uncertainty"), (stdRow v).map (fun s =>
                s * Real.sqrt (1 / ((2 * ((v.length : ℤ) - 1) : ℤ) : ℝ))))] :=
      (summary_df_from_list_reduces v est _ hrect hne).trans
        (summary_df_ok_ff v tv htv hN)
    rw [efficiency_gain_df_two_identical n0 n1 v est tv false _ _ hS rfl]
    rw [show ("std" ++ " efficiency gain" : String) = "std efficiency gain" from rfl]
    rw [effTableGet_sortEff _ _ (by
      simp [concatEff, hn, Ne.symm hn]) _]
    simp only [concatEff, List.flatMap_cons, List.flatMap_nil, List.map_cons,
      List.map_nil, List.append_nil, List.cons_append, List.nil_append]
    rw [lookup_cons_ne _ _ (by simp), lookup_cons_ne _ _ (by simp),
        lookup_cons_ne _ _ (by simp), lookup_cons_ne _ _ (by simp),
        lookup_cons_ne _ _ (by simp), lookup_cons_ne _ _ (by simp),
        lookup_cons_ne _ _ (by simp), lookup_cons_ne _ _ (by simp),
        lookup_cons_eq]
    simp only [Option.getD_some]
    rw [show lookupRow [(("mean", "value"), meanRow v),
        (("mean", "uncertainty"), (stdRow v).map (fun s => s / Real.sqrt v.length)),
        (("std", "value"), stdRow v),
        (("std", "uncertainty"), (stdRow v).map (fun s =>
          s * Real.sqrt (1 / ((2 * ((v.length : ℤ) - 1) : ℤ) : ℝ))))]
        ("std", "value") = stdRow v from rfl]
    exact hgain1
  | true =>
    obtain ⟨t, rfl, htlen, hmse⟩ := hrmse rfl
    have hrmsenz : ∀ x ∈ rmseRow v t, x ≠ 0 := by
      intro x hx
      obtain ⟨j, hj, rfl⟩ := List.mem_map.1 hx
      rw [List.mem_range, hC] at hj
      exact sqrt_ne_zero_of_nonneg_ne (sqErr_mean_nonneg j v t) (hmse j hj)
    have hrmselen : (rmseRow v t).length = est.length := by
      rw [rmseRow, List.length_map, List.length_range, hC]
    have hgain1R : vmul (vdiv (rmseRow v t) (rmseRow v t))
        (vdiv (rmseRow v t) (rmseRow v t)) = List.replicate est.length 1 := by
      rw [vmul_vdiv_self hrmsenz, hrmselen]
    have hS : summary_df_from_list v est ⟨some t, false, true, []⟩ =
        .ok [(("mean", "value"), meanRow v),
             (("mean", "uncertainty"), (stdRow v).map (fun s => s / Real.sqrt v.length)),
             (("std", "value"), stdRow v),
             (("std", "uncertainty"), (stdRow v).map (fun s =>
                s * Real.sqrt (1 / ((2 * ((v.length : ℤ) - 1) : ℤ) : ℝ)))),
             (("rmse", "value"), rmseRow v t),
             (("rmse", "uncertainty"), rmseUncRow v t)] :=
      (summary_df_from_list_reduces v est _ hrect hne).trans
        (summary_df_ok_rmse v t (by simpa [tvShapeBad, hC] using htlen) hN)
    constructor
    · rw [efficiency_gain_df_two_identical n0 n1 v est (some t) true _ _ hS rfl]
      rw [show ("std" ++ " efficiency gain" : String) = "std efficiency gain" from rfl,
          show ("rmse" ++ " efficiency gain" : String) = "rmse efficiency gain" from rfl]
      rw [effTableGet_sortEff _ _ (by
        simp [concatEff, hn, Ne.symm hn]) _]
      simp only [concatEff, List.flatMap_cons, List.flatMap_nil, List.map_cons,
        List.map_nil, List.append_nil, List.cons_append, List.nil_append,
        List.append_assoc]
      rw [lookup_cons_ne _ _ (by simp), lookup_cons_ne _ _ (by simp),
          lookup_cons_ne _ _ (by simp), lookup_cons_ne _ _ (by simp),
          lookup_cons_ne _ _ (by simp), lookup_cons_ne _ _ (by simp),
          lookup_cons_ne _ _ (by simp), lookup_cons_ne _ _ (by simp),
          lookup_cons_ne _ _ (by simp), lookup_cons_ne _ _ (by simp),
          lookup_cons_ne _ _ (by simp), lookup_cons_ne _ _ (by simp),
          lookup_cons_eq]
      simp only [Option.getD_some]
      rw [show lookupRow [(("mean", "value"), meanRow v),
          (("mean", "uncertainty"), (stdRow v).map (fun s => s / Real.sqrt v.length)),
          (("std", "value"), stdRow v),
          (("std", "uncertainty"), (stdRow v).map (fun s =>
            s * Real.sqrt (1 / ((2 * ((v.length : ℤ) - 1) : ℤ) : ℝ)))),
          (("rmse", "value"), rmseRow v t),
          (("rmse", "uncertainty"), rmseUncRow v t)]
          ("std", "value") = stdRow v from rfl]
      exact hgain1
    · intro _
      rw [efficiency_gain_df_two_identical n0 n1 v est (some t) true _ _ hS rfl]
      rw [show ("std" ++ " efficiency gain" : String) = "std efficiency gain" from rfl,
          show ("rmse" ++ " efficiency gain" : String) = "rmse efficiency gain" from rfl]
      rw [effTableGet_sortEff _ _ (by
        simp [concatEff, hn, Ne.symm hn]) _]
      simp only [concatEff, List.flatMap_cons, List.flatMap_nil, List.map_cons,
        List.map_nil, List.append_nil, List.cons_append, List.nil_append,
        List.append_assoc]
      rw [lookup_cons_ne _ _ (by simp), lookup_cons_ne _ _ (by simp),
          lookup_cons_ne _ _ (by simp), lookup_cons_ne _ _ (by simp),
          lookup_cons_ne _ _ (by simp), lookup_cons_ne _ _ (by simp),
          lookup_cons_ne _ _ (by simp), lookup_cons_ne _ _ (by simp),
          lookup_cons_ne _ _ (by simp), lookup_cons_ne _ _ (by simp),
          lookup_cons_ne _ _ (by simp), lookup_cons_ne _ _ (by simp),
          lookup_cons_ne _ _ (by simp), lookup_cons_ne _ _ (by simp),
          lookup_cons_eq]
      simp only [Option.getD_some]
      exact hgain1R

/-- Witness for C8 (amended): two methods named `a`, `b` over three
nonconstant repeats of one estimator give a std efficiency gain of 1. -/
theorem C8_witness :
    effTableGet (efficiency_gain_df ["a", "b"]
        [[[(0 : ℝ)], [1], [2]], [[(0 : ℝ)], [1], [2]]] ["e"]
        ⟨none, false, false, none, []⟩)
      ("std efficiency gain", "b", "value") = List.replicate 1 (1 : ℝ) :=
  (C8_identical_methods_gain_one "a" "b" [[(0 : ℝ)], [1], [2]] ["e"] none false
    (by decide) (by decide) (by simp) (by decide) rfl
    (by
      intro j hj
      simp only [List.length_cons, List.length_nil] at hj
      have hj0 : j = 0 := by omega
      subst hj0
      norm_num [npVar, npMean, column, List.getD])
    (by simp)).1

end Nestcheck
